import Mathlib

/-!
# Verification of the anpr-system frontend client and job model

Shallow embedding of the TypeScript frontend of the ANPR (automatic number
plate recognition) system: the API client (`src/frontend/lib/api.ts`) and the
video workspace page (`src/frontend/src/app/workspace/video/page.tsx`).
The backend (FastAPI + ONNX) is not part of the translated sources; where a
property depends on backend behaviour, the corresponding definition is
modelled from the specification and marked `Modelled from the spec:` in its
doc comment.

JSON values coming over the wire are modelled as records whose optional
fields are `Option`-valued (`none` plays the role of JavaScript
`undefined`/`null`); JSON numbers are rationals, counts are integers.
-/

/-! ## Status endpoint client (`getVideoStatus`, api.ts lines 136–157) -/

/-- A parsed JSON payload of `GET /infer/video/status/{job_id}` as the client
sees it.  `progress` is optional: the backend may omit it, which the client
normalises.  Remaining fields are carried through untouched by the client. -/
structure StatusPayload where
  status : String
  progress : Option ℚ
  vehicle_count : Option ℤ
  plate_count : Option ℤ
  annotated_video_url : Option String
  deriving Repr, DecidableEq

/-- The object `getVideoStatus` returns: the payload with `progress` made
mandatory. -/
structure StatusResult where
  status : String
  progress : ℚ
  vehicle_count : Option ℤ
  plate_count : Option ℤ
  annotated_video_url : Option String
  deriving Repr, DecidableEq

/-- Embeds `getVideoStatus` (api.ts): after a successful fetch it returns
`{ ...data, progress: data.progress ?? 0 }` — the payload spread unchanged,
with a nullish `progress` replaced by `0` (`Option.getD`). -/
def getVideoStatus (data : StatusPayload) : StatusResult :=
  { status := data.status
    progress := data.progress.getD 0
    vehicle_count := data.vehicle_count
    plate_count := data.plate_count
    annotated_video_url := data.annotated_video_url }

/-! ## Image endpoint client (`inferImage`, api.ts lines 32–99) -/

/-- A JSON bounding box `{x1, y1, x2, y2}` as produced by the backend. -/
structure BBoxJson where
  x1 : ℚ
  y1 : ℚ
  x2 : ℚ
  y2 : ℚ
  deriving Repr, DecidableEq

/-- One entry of `data.raw_meta.vehicles`.  The client reads
`v.bbox_vehicle`, `v.confidence` and `v.class_id` unconditionally. -/
structure VehicleEntry where
  bbox_vehicle : BBoxJson
  confidence : ℚ
  class_id : ℤ
  deriving Repr, DecidableEq

/-- One entry of `data.plates`.  The client guards every field it reads:
`p.bbox_plate ? ... : p.bbox_vehicle ? ... : [0,0,0,0]` and
`p.confidence || 0`, so all three are optional here. -/
structure PlateEntry where
  bbox_plate : Option BBoxJson
  bbox_vehicle : Option BBoxJson
  confidence : Option ℚ
  deriving Repr, DecidableEq

/-- The task selector sent to the backend; the TypeScript type is the union
`"vehicle_detect" | "plate_recognize"`. -/
inductive InferTask
  | vehicle_detect
  | plate_recognize
  deriving Repr, DecidableEq

/-- A parsed JSON payload of `POST /infer/image`, with the fields the client
transformation reads.  Per the comment in api.ts the backend returns
`{ task, vehicle_count, plate_count, plates, raw_meta: { vehicles }, image_url, ... }`;
`raw_meta?.vehicles` and `plates` may be absent (`none`), `image_url` is the
URL of the annotated image. -/
structure ImagePayload where
  task : String
  vehicle_count : ℤ
  plate_count : ℤ
  plates : Option (List PlateEntry)
  raw_meta_vehicles : Option (List VehicleEntry)
  image_url : String
  deriving Repr, DecidableEq

/-- A frontend detection row `{bbox, score, class_id}`. -/
structure Detection where
  bbox : List ℚ
  score : ℚ
  class_id : ℤ
  deriving Repr, DecidableEq

/-- The transformed object `inferImage` resolves with.  The literal writes
`task`, `count`, `detections`, `storage_url` and then spreads `...data`;
the backend payload has no `count`/`detections`/`storage_url` keys, so the
spread only adds the payload's own fields (`vehicle_count`, `plate_count`,
`image_url`, ...). -/
structure ImageResult where
  task : String
  count : ℤ
  detections : List Detection
  storage_url : String
  vehicle_count : ℤ
  plate_count : ℤ
  image_url : String
  deriving Repr, DecidableEq

/-- The vehicle branch of the mapping (api.ts lines 76–80):
`{ bbox: [x1,y1,x2,y2], score: v.confidence, class_id: v.class_id }`. -/
def vehicleToDetection (v : VehicleEntry) : Detection :=
  { bbox := [v.bbox_vehicle.x1, v.bbox_vehicle.y1, v.bbox_vehicle.x2, v.bbox_vehicle.y2]
    score := v.confidence
    class_id := v.class_id }

/-- The plate branch of the mapping (api.ts lines 82–87): bbox falls back
from `bbox_plate` to `bbox_vehicle` to `[0,0,0,0]`, score is
`p.confidence || 0`, class id is the literal `0`. -/
def plateToDetection (p : PlateEntry) : Detection :=
  { bbox :=
      match p.bbox_plate with
      | some b => [b.x1, b.y1, b.x2, b.y2]
      | none =>
        match p.bbox_vehicle with
        | some b => [b.x1, b.y1, b.x2, b.y2]
        | none => [0, 0, 0, 0]
    score := p.confidence.getD 0
    class_id := 0 }

/-- The detections list built by `inferImage` (api.ts lines 71–88):
`if (task === "vehicle_detect" && data.raw_meta?.vehicles) { vehicles }
else if (data.plates) { plates } else []`.  A present-but-empty array is
truthy in JavaScript, hence presence is tested, not non-emptiness. -/
def inferImageDetections (task : InferTask) (data : ImagePayload) : List Detection :=
  match task, data.raw_meta_vehicles with
  | InferTask.vehicle_detect, some vs => vs.map vehicleToDetection
  | _, _ =>
    match data.plates with
    | some ps => ps.map plateToDetection
    | none => []

/-- Embeds the response transformation of `inferImage` (api.ts lines 65–98):
`count` selects `vehicle_count` for `vehicle_detect` and `plate_count`
otherwise, `storage_url` is `data.image_url`, and the payload's own fields
are spread into the result. -/
def inferImage (task : InferTask) (data : ImagePayload) : ImageResult :=
  { task := data.task
    count :=
      match task with
      | InferTask.vehicle_detect => data.vehicle_count
      | InferTask.plate_recognize => data.plate_count
    detections := inferImageDetections task data
    storage_url := data.image_url
    vehicle_count := data.vehicle_count
    plate_count := data.plate_count
    image_url := data.image_url }

/-! ## Video job states (video/page.tsx lines 8–36) -/

/-- The `JobStatus` string-literal union of video/page.tsx (lines 8–16).  It
has exactly these eight members; in particular no `canceled` member. -/
inductive JobStatus
  | upload_received
  | video_precheck
  | processing
  | processing_done
  | reencoding
  | uploading
  | completed
  | failed
  deriving Repr, DecidableEq

/-- The string literal of each `JobStatus` member. -/
def statusString : JobStatus → String
  | JobStatus.upload_received => "upload_received"
  | JobStatus.video_precheck => "video_precheck"
  | JobStatus.processing => "processing"
  | JobStatus.processing_done => "processing_done"
  | JobStatus.reencoding => "reencoding"
  | JobStatus.uploading => "uploading"
  | JobStatus.completed => "completed"
  | JobStatus.failed => "failed"

/-- The members of the `JobStatus` union, in declaration order. -/
def jobStatusList : List JobStatus :=
  [JobStatus.upload_received, JobStatus.video_precheck, JobStatus.processing,
   JobStatus.processing_done, JobStatus.reencoding, JobStatus.uploading,
   JobStatus.completed, JobStatus.failed]

/-- The string literals of the `JobStatus` union. -/
def jobStatusStrings : List String := jobStatusList.map statusString

/-- The `STATUS_LABELS` record of video/page.tsx (lines 27–36). -/
def STATUS_LABELS : JobStatus → String
  | JobStatus.upload_received => "Uploading video"
  | JobStatus.video_precheck => "Validating video"
  | JobStatus.processing => "Processing frames"
  | JobStatus.processing_done => "Finalizing processing"
  | JobStatus.reencoding => "Re-encoding video"
  | JobStatus.uploading => "Uploading output"
  | JobStatus.completed => "Completed"
  | JobStatus.failed => "Failed"

/-! ## Backend job state machine, modelled from the spec (§4.2)

The JobStateMachine itself is backend code that is not among the translated
sources; only its frontend observers are.  The following definitions are the
spec's state machine, restricted to the states the frontend can observe. -/

/-- Modelled from the spec: a backend video `Job`'s mutable core — current
state plus the frame counters `processed_frames`/`total_frames` that drive
incremental progress (§3 Job, §4.2). -/
structure Job where
  status : JobStatus
  processed : ℕ
  total : ℕ
  deriving Repr, DecidableEq

/-- Modelled from the spec: the successor in the one-directional chain
`upload_received → video_precheck → processing → processing_done →
reencoding → uploading → completed` (§4.2); terminal states have none. -/
def chainNext : JobStatus → Option JobStatus
  | JobStatus.upload_received => some JobStatus.video_precheck
  | JobStatus.video_precheck => some JobStatus.processing
  | JobStatus.processing => some JobStatus.processing_done
  | JobStatus.processing_done => some JobStatus.reencoding
  | JobStatus.reencoding => some JobStatus.uploading
  | JobStatus.uploading => some JobStatus.completed
  | JobStatus.completed => none
  | JobStatus.failed => none

/-- Modelled from the spec: one transition of the JobStateMachine (§4.2).
Either a frame is processed (only in `processing`, advancing the counter),
or the state advances along the chain (`processing` may only be left once
all frames are processed), or any non-terminal state fails. -/
def jobStepB (j j' : Job) : Bool :=
  (decide (j.status = JobStatus.processing) && decide (j.processed < j.total) &&
    decide (j' = { j with processed := j.processed + 1 })) ||
  (match chainNext j.status with
   | some t =>
     (!decide (j.status = JobStatus.processing) || decide (j.processed = j.total)) &&
       decide (j' = { j with status := t })
   | none => false) ||
  (decide (j.status ≠ JobStatus.completed) && decide (j.status ≠ JobStatus.failed) &&
    decide (j' = { j with status := JobStatus.failed }))

/-- Modelled from the spec: the progress percentage exposed by the status
endpoint (§4.2, §6).  Before `processing` it is 0; during `processing` it is
`processed_frames / total_frames` as a percentage, capped at the endpoint's
upper bound 100 (§6 promises 0–100 whatever the counters hold); from
`processing_done` on it is 100.  The spec leaves the value on a `failed`
job unconstrained (only `processing` has incremental progress); the model
reports 100 there as for the other post-`processing` states, a choice no
claim depends on. -/
def jobProgress (j : Job) : ℕ :=
  match j.status with
  | JobStatus.upload_received => 0
  | JobStatus.video_precheck => 0
  | JobStatus.processing => min (j.processed * 100 / j.total) 100
  | _ => 100

/-- Modelled from the spec: zero or more JobStateMachine transitions — what
can happen between two successive status polls. -/
def JobReach : Job → Job → Prop :=
  Relation.ReflTransGen fun j j' => jobStepB j j' = true

/-! ## Video workspace state (video/page.tsx) -/

/-- The size of a selected file, as read from `f.size` (bytes). -/
structure FileMeta where
  size : ℕ
  deriving Repr, DecidableEq

/-- `MAX_VIDEO_SIZE` (video/page.tsx line 6): the hardcoded constant
`200 * 1024 * 1024`. -/
def MAX_VIDEO_SIZE : ℕ := 200 * 1024 * 1024

/-- The React state of `VideoWorkspacePage` that the handlers touch:
`file`, `jobId`, `result` (the last stored `VideoResult`), `error`,
`canceling`, and whether the polling interval is installed
(`pollingRef.current !== null`). -/
structure WorkspaceState where
  file : Option FileMeta
  jobId : Option String
  result : Option StatusResult
  error : Option String
  canceling : Bool
  pollingActive : Bool
  deriving Repr, DecidableEq

/-- `resetJob` (video/page.tsx lines 89–96): clears the polling interval and
the job id and result. -/
def resetJob (s : WorkspaceState) : WorkspaceState :=
  { s with pollingActive := false, jobId := none, result := none }

/-- `handleFileChange` (video/page.tsx lines 75–87): an oversized file is
rejected synchronously — error set, selection cleared, early return (note:
without `resetJob`); otherwise the file is stored, the error cleared and the
job state reset. -/
def handleFileChange (f : Option FileMeta) (s : WorkspaceState) : WorkspaceState :=
  match f with
  | some f =>
    if f.size > MAX_VIDEO_SIZE then
      { s with error := some "File size exceeds 200MB limit", file := none }
    else
      resetJob { s with file := some f, error := none }
  | none => resetJob { s with file := none, error := none }

/-- Follows the spec's words, for comparison with `handleFileChange`: §6
lists the max upload size among "Recognized configuration: … — all
externally supplied, not hardcoded business logic", so the handler's
threshold is an externally supplied parameter instead of `MAX_VIDEO_SIZE`. -/
def handleFileChangeSpec (maxUploadSize : ℕ) (f : Option FileMeta) (s : WorkspaceState) :
    WorkspaceState :=
  match f with
  | some f =>
    if f.size > maxUploadSize then
      { s with error := some "File size exceeds 200MB limit", file := none }
    else
      resetJob { s with file := some f, error := none }
  | none => resetJob { s with file := none, error := none }

/-- `handleRun` (video/page.tsx lines 100–127), with the job id returned by
the backend as a parameter: without a selected file it only sets an error;
otherwise it resets the job state, stores the new job id and seeds the
result with `{ status: "upload_received", progress: 0 }`.  Setting `jobId`
installs the polling interval (the `useEffect` on lines 149–188). -/
def handleRun (newJobId : String) (s : WorkspaceState) : WorkspaceState :=
  match s.file with
  | none => { s with error := some "Select a video first" }
  | some _ =>
    let s1 := resetJob { s with error := none }
    { s1 with
      jobId := some newJobId
      result := some
        { status := "upload_received", progress := 0, vehicle_count := none
          plate_count := none, annotated_video_url := none }
      pollingActive := true }

/-- Whether the cancel HTTP call (`fetch` in `handleCancel`) resolved or
threw; the handler catches the rejection, so both are ordinary values. -/
inductive FetchOutcome
  | ok
  | err
  deriving Repr, DecidableEq

/-- `handleCancel` (video/page.tsx lines 131–145): a no-op without a job id;
otherwise the cancel request's outcome is swallowed (`catch {}`), the
`finally` clears `canceling`, and `resetJob` runs unconditionally
afterwards. -/
def handleCancel (outcome : FetchOutcome) (s : WorkspaceState) : WorkspaceState :=
  match s.jobId with
  | none => s
  | some _ =>
    match outcome with
    | FetchOutcome.ok => resetJob { s with canceling := false }
    | FetchOutcome.err => resetJob { s with canceling := false }

/-! ## Polling loop (video/page.tsx lines 149–188) -/

/-- The terminal-state test of the polling callback:
`status.status === "completed" || status.status === "failed"`. -/
def isTerminalStatus (s : String) : Bool :=
  s == "completed" || s == "failed"

/-- The status requests the polling interval issues, as a function of the
stream of responses the backend would hand out: each tick fetches one
response; on a terminal one the interval is cleared
(`clearInterval`), so the remaining stream is never requested.  (A fetch
that throws is caught and polling continues; the claims quantify over
delivered responses, so the stream holds successful responses.) -/
def pollRequests : List StatusResult → List StatusResult
  | [] => []
  | r :: rs =>
    if isTerminalStatus r.status then [r]
    else r :: pollRequests rs

/-! ## Geometry mapping, modelled from the spec (§4.1)

The Preprocessor/GeometryMapper is backend code that is not among the
translated sources.  Coordinates are rationals, standing for the reals of
the implementation; over ℚ the round trip is exact rather than up to
floating-point tolerance. -/

/-- A box `(x1, y1, x2, y2)` with rational coordinates. -/
@[ext]
structure RBox where
  x1 : ℚ
  y1 : ℚ
  x2 : ℚ
  y2 : ℚ
  deriving Repr, DecidableEq

/-- Modelled from the spec: the per-frame `Transform` recorded by the
Preprocessor — scale factor, pad offsets and ROI origin offset (§3, §4.1). -/
structure Transform where
  scale : ℚ
  padX : ℚ
  padY : ℚ
  roiX : ℚ
  roiY : ℚ
  deriving Repr, DecidableEq

/-- Modelled from the spec: `prepare` (§4.1) on an ROI of positive area —
resize preserving aspect ratio to fit the square model input of side
`inputSize`, center-pad the remainder, record scale, pads and ROI origin. -/
def prepareTransform (inputSize : ℚ) (roi : RBox) : Transform :=
  let w := roi.x2 - roi.x1
  let h := roi.y2 - roi.y1
  let scale := inputSize / max w h
  { scale := scale
    padX := (inputSize - w * scale) / 2
    padY := (inputSize - h * scale) / 2
    roiX := roi.x1
    roiY := roi.y1 }

/-- Modelled from the spec: the forward mapping from original-frame space to
model-input space — subtract the ROI origin, multiply by the scale, add the
pad (the mapping whose exact algebraic inverse §4.1 prescribes). -/
def forwardBox (t : Transform) (b : RBox) : RBox :=
  { x1 := (b.x1 - t.roiX) * t.scale + t.padX
    y1 := (b.y1 - t.roiY) * t.scale + t.padY
    x2 := (b.x2 - t.roiX) * t.scale + t.padX
    y2 := (b.y2 - t.roiY) * t.scale + t.padY }

/-- Modelled from the spec: `transform.invert` (§4.1) — "subtract pad,
divide by scale, add ROI origin offset". -/
def invertBox (t : Transform) (b : RBox) : RBox :=
  { x1 := (b.x1 - t.padX) / t.scale + t.roiX
    y1 := (b.y1 - t.padY) / t.scale + t.roiY
    x2 := (b.x2 - t.padX) / t.scale + t.roiX
    y2 := (b.y2 - t.padY) / t.scale + t.roiY }

/-- The nine states the claim lists as observable, including `canceled`. -/
def claimedJobStates : List String :=
  ["upload_received", "video_precheck", "processing", "processing_done",
   "reencoding", "uploading", "completed", "failed", "canceled"]

/-! ## Theorems -/

/-- Claim C1: for every JSON payload of `GET /infer/video/status/{job_id}` —
which per the endpoint contract carries a progress between 0 and 100 when it
carries one — the value `getVideoStatus` produces has a numeric `progress`
field between 0 and 100 inclusive. -/
theorem getVideoStatus_progress_in_range (d : StatusPayload)
    (h : ∀ q : ℚ, d.progress = some q → 0 ≤ q ∧ q ≤ 100) :
    0 ≤ (getVideoStatus d).progress ∧ (getVideoStatus d).progress ≤ 100 := by
  cases hp : d.progress with
  | none => simp [getVideoStatus, hp]
  | some q =>
    have hq := h q hp
    simpa [getVideoStatus, hp] using hq

/-- Witness for C1 at a concrete payload reporting progress 42. -/
theorem getVideoStatus_progress_in_range_witness :
    0 ≤ (getVideoStatus ⟨"processing", some 42, none, none, none⟩).progress ∧
      (getVideoStatus ⟨"processing", some 42, none, none, none⟩).progress ≤ 100 :=
  getVideoStatus_progress_in_range ⟨"processing", some 42, none, none, none⟩
    (fun q hq => by cases hq; exact ⟨by norm_num, by norm_num⟩)

/-- Claim C9: `getVideoStatus` returns the payload unchanged on every field
except `progress`: a missing (nullish) progress becomes 0, a present one —
including 0 — passes through. -/
theorem getVideoStatus_frame_effect (d : StatusPayload) (q : ℚ) :
    getVideoStatus d =
      { status := d.status
        progress := d.progress.getD 0
        vehicle_count := d.vehicle_count
        plate_count := d.plate_count
        annotated_video_url := d.annotated_video_url } ∧
    (getVideoStatus { d with progress := none }).progress = 0 ∧
    (getVideoStatus { d with progress := some q }).progress = q :=
  ⟨rfl, rfl, rfl⟩

/-- Claim C3: the result `inferImage` delivers carries the payload's
`vehicle_count` and `plate_count`, the annotated image URL as
`storage_url`, and its `count` is `vehicle_count` for `vehicle_detect` and
`plate_count` for `plate_recognize`. -/
theorem inferImage_response_shape (task : InferTask) (data : ImagePayload) :
    (inferImage task data).vehicle_count = data.vehicle_count ∧
    (inferImage task data).plate_count = data.plate_count ∧
    (inferImage task data).storage_url = data.image_url ∧
    (inferImage InferTask.vehicle_detect data).count = data.vehicle_count ∧
    (inferImage InferTask.plate_recognize data).count = data.plate_count :=
  ⟨rfl, rfl, rfl, rfl, rfl⟩

/-- Claim C10: the `inferImage` transformation is total — for
`plate_recognize` each plate entry is mapped by `plateToDetection`, where a
plate missing both boxes gets bbox `[0,0,0,0]`, a missing confidence gets
score 0, every plate gets class id 0; with neither `raw_meta.vehicles` nor
`plates` present the detections are empty, for either task. -/
theorem inferImage_transform_total (data : ImagePayload) (ps : List PlateEntry)
    (p : PlateEntry) (b v : Option BBoxJson) (c : Option ℚ) (task : InferTask) :
    (inferImage InferTask.plate_recognize { data with plates := some ps }).detections
        = ps.map plateToDetection ∧
    (plateToDetection { bbox_plate := none, bbox_vehicle := none, confidence := c }).bbox
        = [0, 0, 0, 0] ∧
    (plateToDetection { bbox_plate := b, bbox_vehicle := v, confidence := none }).score = 0 ∧
    (plateToDetection p).class_id = 0 ∧
    (inferImage task { data with plates := none, raw_meta_vehicles := none }).detections
        = [] := by
  refine ⟨?_, rfl, rfl, rfl, ?_⟩
  · cases hrm : data.raw_meta_vehicles <;>
      simp [inferImage, inferImageDetections, hrm]
  · cases task <;> rfl

/-- Claim C2, counterexample: the claim's state list includes `canceled`,
but `canceled` is not a member of the code's `JobStatus` union — the set of
observable states is not the claimed nine. -/
theorem canceled_not_observable :
    "canceled" ∈ claimedJobStates ∧ "canceled" ∉ jobStatusStrings := by
  decide

/-- Claim C2 as amended: the set of job states a video job can be observed
in is exactly `upload_received`, `video_precheck`, `processing`,
`processing_done`, `reencoding`, `uploading`, `completed`, `failed` (no
`canceled` state), with `failed` reachable from any non-terminal state. -/
theorem job_states_exactly_eight (s : JobStatus) (p t : ℕ)
    (h1 : s ≠ JobStatus.completed) (h2 : s ≠ JobStatus.failed) :
    s ∈ jobStatusList ∧
    jobStatusStrings =
      ["upload_received", "video_precheck", "processing", "processing_done",
       "reencoding", "uploading", "completed", "failed"] ∧
    jobStepB ⟨s, p, t⟩ ⟨JobStatus.failed, p, t⟩ = true := by
  refine ⟨?_, by decide, ?_⟩
  · cases s <;> simp [jobStatusList]
  · cases s <;> simp_all [jobStepB, chainNext]

/-- Witness for the amended C2 at the non-terminal state `processing`. -/
theorem job_states_exactly_eight_witness :
    JobStatus.processing ∈ jobStatusList ∧
    jobStatusStrings =
      ["upload_received", "video_precheck", "processing", "processing_done",
       "reencoding", "uploading", "completed", "failed"] ∧
    jobStepB ⟨JobStatus.processing, 3, 7⟩ ⟨JobStatus.failed, 3, 7⟩ = true :=
  job_states_exactly_eight JobStatus.processing 3 7 (by decide) (by decide)

/-- Claim C4, counterexample: the maximum upload size is not externally
supplied configuration — with an external configuration of 100 MiB
(104857600 bytes) the spec's configurable handler rejects a 150 MiB file,
while the code's handler, which compares against the hardcoded
`MAX_VIDEO_SIZE`, accepts it. -/
theorem max_upload_size_not_config :
    handleFileChange (some ⟨157286400⟩) ⟨none, none, none, none, false, false⟩ ≠
      handleFileChangeSpec 104857600 (some ⟨157286400⟩)
        ⟨none, none, none, none, false, false⟩ := by
  decide

/-- Claim C4 as amended: a file strictly larger than `MAX_VIDEO_SIZE` is
rejected synchronously with the error "File size exceeds 200MB limit", no
file remains selected, and running inference afterwards creates no job; a
file of exactly `MAX_VIDEO_SIZE` bytes is accepted.  The maximum upload
size is the hardcoded constant `MAX_VIDEO_SIZE = 200 * 1024 * 1024`, i.e.
the handler coincides with the spec's configurable handler only at that
constant, not external configuration. -/
theorem oversize_file_rejected (f : FileMeta) (s : WorkspaceState) (jid : String)
    (hf : f.size > MAX_VIDEO_SIZE) (hs : s.jobId = none) :
    (handleFileChange (some f) s).error = some "File size exceeds 200MB limit" ∧
    (handleFileChange (some f) s).file = none ∧
    (handleRun jid (handleFileChange (some f) s)).jobId = none ∧
    (handleFileChange (some ⟨MAX_VIDEO_SIZE⟩) s).file = some ⟨MAX_VIDEO_SIZE⟩ ∧
    handleFileChange (some f) s = handleFileChangeSpec MAX_VIDEO_SIZE (some f) s := by
  refine ⟨?_, ?_, ?_, ?_, ?_⟩ <;>
    simp [handleFileChange, handleFileChangeSpec, handleRun, resetJob, hf, hs]

/-- Witness for the amended C4: a 250 MiB file against a fresh workspace. -/
theorem oversize_file_rejected_witness :
    (handleFileChange (some ⟨262144000⟩) ⟨none, none, none, none, false, false⟩).error
        = some "File size exceeds 200MB limit" ∧
    (handleFileChange (some ⟨262144000⟩) ⟨none, none, none, none, false, false⟩).file
        = none ∧
    (handleRun "job-1"
        (handleFileChange (some ⟨262144000⟩) ⟨none, none, none, none, false, false⟩)).jobId
        = none ∧
    (handleFileChange (some ⟨MAX_VIDEO_SIZE⟩)
        ⟨none, none, none, none, false, false⟩).file = some ⟨MAX_VIDEO_SIZE⟩ ∧
    handleFileChange (some ⟨262144000⟩) ⟨none, none, none, none, false, false⟩
      = handleFileChangeSpec MAX_VIDEO_SIZE (some ⟨262144000⟩)
        ⟨none, none, none, none, false, false⟩ :=
  oversize_file_rejected ⟨262144000⟩ ⟨none, none, none, none, false, false⟩ "job-1"
    (by decide) rfl

/-- Claim C6: cancellation is best-effort and idempotent — on a state with
an existing job, `handleCancel` (a total function: the fetch rejection is
swallowed) leaves no job id, no result and no polling interval, its effect
does not depend on the cancel call's outcome, and repeating it changes
nothing. -/
theorem handleCancel_best_effort (o : FetchOutcome) (s : WorkspaceState) (jid : String)
    (h : s.jobId = some jid) :
    (handleCancel o s).jobId = none ∧
    (handleCancel o s).result = none ∧
    (handleCancel o s).pollingActive = false ∧
    (handleCancel o s).canceling = false ∧
    handleCancel o s = handleCancel FetchOutcome.err s ∧
    handleCancel o (handleCancel o s) = handleCancel o s := by
  cases o <;> simp [handleCancel, h, resetJob]

/-- Witness for C6: cancel with a failing HTTP call on a workspace whose job
already reported `completed`. -/
theorem handleCancel_best_effort_witness :
    (handleCancel FetchOutcome.err
        ⟨none, some "job-1",
         some ⟨"completed", 100, none, none, none⟩, none, false, true⟩).jobId = none ∧
    (handleCancel FetchOutcome.err
        ⟨none, some "job-1",
         some ⟨"completed", 100, none, none, none⟩, none, false, true⟩).result = none ∧
    (handleCancel FetchOutcome.err
        ⟨none, some "job-1",
         some ⟨"completed", 100, none, none, none⟩, none, false, true⟩).pollingActive
        = false ∧
    (handleCancel FetchOutcome.err
        ⟨none, some "job-1",
         some ⟨"completed", 100, none, none, none⟩, none, false, true⟩).canceling
        = false ∧
    handleCancel FetchOutcome.err
        ⟨none, some "job-1",
         some ⟨"completed", 100, none, none, none⟩, none, false, true⟩
      = handleCancel FetchOutcome.err
        ⟨none, some "job-1",
         some ⟨"completed", 100, none, none, none⟩, none, false, true⟩ ∧
    handleCancel FetchOutcome.err
        (handleCancel FetchOutcome.err
          ⟨none, some "job-1",
           some ⟨"completed", 100, none, none, none⟩, none, false, true⟩)
      = handleCancel FetchOutcome.err
        ⟨none, some "job-1",
         some ⟨"completed", 100, none, none, none⟩, none, false, true⟩ :=
  handleCancel_best_effort FetchOutcome.err
    ⟨none, some "job-1", some ⟨"completed", 100, none, none, none⟩, none, false, true⟩
    "job-1" rfl

/-- Claim C5: polling stops exactly at the first terminal response — the
stream `as ++ t :: bs` with `as` non-terminal and `t` terminal
(`completed` or `failed`) is polled as `as ++ [t]`, so nothing after `t` is
ever requested; and a stream of non-terminal responses is polled in full
(polling continues). -/
theorem polling_stops_after_terminal (as bs : List StatusResult) (t : StatusResult)
    (ha : ∀ r ∈ as, isTerminalStatus r.status = false)
    (ht : isTerminalStatus t.status = true) :
    pollRequests (as ++ t :: bs) = as ++ [t] ∧ pollRequests as = as := by
  induction as with
  | nil => simp [pollRequests, ht]
  | cons a as ih =>
    have ha1 : isTerminalStatus a.status = false := ha a (by simp)
    have ih1 := ih (fun r hr => ha r (List.mem_cons_of_mem _ hr))
    simp [pollRequests, ha1, ih1.1, ih1.2]

/-- Witness for C5: one `processing` response, then `completed`, then a
response that is never requested. -/
theorem polling_stops_after_terminal_witness :
    pollRequests
        [⟨"processing", 40, none, none, none⟩,
         ⟨"completed", 100, some 5, some 2, some "u"⟩,
         ⟨"completed", 100, some 5, some 2, some "u"⟩]
      = [⟨"processing", 40, none, none, none⟩,
         ⟨"completed", 100, some 5, some 2, some "u"⟩] ∧
    pollRequests [⟨"processing", 40, none, none, none⟩]
      = [⟨"processing", 40, none, none, none⟩] :=
  polling_stops_after_terminal [⟨"processing", 40, none, none, none⟩]
    [⟨"completed", 100, some 5, some 2, some "u"⟩]
    ⟨"completed", 100, some 5, some 2, some "u"⟩ (by decide) (by decide)

/-- Helper for C8: with a non-zero scale, the inverse mapping undoes the
forward mapping. -/
theorem invert_forward_of_scale (t : Transform) (b : RBox) (h : t.scale ≠ 0) :
    invertBox t (forwardBox t b) = b := by
  ext <;> (simp only [invertBox, forwardBox]; field_simp)

/-- Helper for C8: with a non-zero scale, the forward mapping undoes the
inverse mapping. -/
theorem forward_invert_of_scale (t : Transform) (b : RBox) (h : t.scale ≠ 0) :
    forwardBox t (invertBox t b) = b := by
  ext <;> (simp only [invertBox, forwardBox]; field_simp; ring)

/-- Helper for C8: the letterbox scale recorded by `prepare` is positive for
a positive model input size and an ROI of positive width. -/
theorem prepareTransform_scale_pos (inputSize : ℚ) (roi : RBox)
    (hin : 0 < inputSize) (hw : roi.x1 < roi.x2) :
    0 < (prepareTransform inputSize roi).scale := by
  have hmax : 0 < max (roi.x2 - roi.x1) (roi.y2 - roi.y1) :=
    lt_max_of_lt_left (by linarith)
  exact div_pos hin hmax

/-- Claim C8: geometry round-trip — for any model input size and any ROI of
positive area (hence any frame size: the recorded scale, pads and ROI
origin are exactly what `prepare` derives from them), applying the forward
mapping then the inverse, or the inverse then the forward, returns every
box unchanged; over ℚ the identity is exact. -/
theorem geometry_round_trip (inputSize : ℚ) (roi b : RBox)
    (hin : 0 < inputSize) (hw : roi.x1 < roi.x2) (_hh : roi.y1 < roi.y2) :
    invertBox (prepareTransform inputSize roi)
        (forwardBox (prepareTransform inputSize roi) b) = b ∧
    forwardBox (prepareTransform inputSize roi)
        (invertBox (prepareTransform inputSize roi) b) = b := by
  have hs : (prepareTransform inputSize roi).scale ≠ 0 :=
    ne_of_gt (prepareTransform_scale_pos inputSize roi hin hw)
  exact ⟨invert_forward_of_scale _ _ hs, forward_invert_of_scale _ _ hs⟩

/-- Witness for C8: the spec's scenario geometry — model input 640, ROI
`(100,100,500,500)` — on the box `(110,120,180,200)`. -/
theorem geometry_round_trip_witness :
    invertBox (prepareTransform 640 ⟨100, 100, 500, 500⟩)
        (forwardBox (prepareTransform 640 ⟨100, 100, 500, 500⟩) ⟨110, 120, 180, 200⟩)
      = ⟨110, 120, 180, 200⟩ ∧
    forwardBox (prepareTransform 640 ⟨100, 100, 500, 500⟩)
        (invertBox (prepareTransform 640 ⟨100, 100, 500, 500⟩) ⟨110, 120, 180, 200⟩)
      = ⟨110, 120, 180, 200⟩ :=
  geometry_round_trip 640 ⟨100, 100, 500, 500⟩ ⟨110, 120, 180, 200⟩
    (by norm_num) (by norm_num) (by norm_num)

/-- Helper for C7: a single JobStateMachine transition never decreases the
reported progress. -/
theorem jobStepB_progress_le (j j' : Job) (h : jobStepB j j' = true) :
    jobProgress j ≤ jobProgress j' := by
  obtain ⟨st, pr, tot⟩ := j
  simp only [jobStepB, Bool.or_eq_true, Bool.and_eq_true, Bool.not_eq_true',
    decide_eq_true_eq, decide_eq_false_iff_not] at h
  rcases h with ((⟨⟨hst, hlt⟩, hj⟩ | h) | ⟨⟨h1, h2⟩, hj⟩)
  · subst hst
    subst hj
    simp only [jobProgress]
    exact min_le_min
      (Nat.div_le_div_right (Nat.mul_le_mul_right 100 (Nat.le_succ pr))) le_rfl
  · cases st <;>
      simp only [chainNext, Bool.and_eq_true, Bool.or_eq_true, Bool.not_eq_true',
        decide_eq_true_eq, decide_eq_false_iff_not] at h <;>
      first
        | exact absurd h (by decide)
        | (obtain ⟨hc, hj⟩ := h
           subst hj
           simp [jobProgress, min_le_right])
  · subst hj
    cases st <;> simp [jobProgress, min_le_right]

/-- Helper for C7: progress is monotone along any number of transitions. -/
theorem jobReach_progress_le (j j' : Job) (h : JobReach j j') :
    jobProgress j ≤ jobProgress j' := by
  unfold JobReach at h
  induction h with
  | refl => exact le_rfl
  | tail _ hstep ih => exact le_trans ih (jobStepB_progress_le _ _ hstep)

/-- Claim C7: for a job that reaches `completed`, the progress values
observed over successive status polls — each poll a snapshot of the job
after zero or more further transitions — form a non-decreasing sequence
whose final value is 100. -/
theorem video_progress_monotone (polls : List Job)
    (hchain : List.Chain' JobReach polls)
    (hlast : polls.getLast?.map Job.status = some JobStatus.completed) :
    List.Chain' (fun a b => a ≤ b) (polls.map jobProgress) ∧
    (polls.map jobProgress).getLast? = some 100 := by
  constructor
  · exact (List.chain'_map jobProgress).mpr
      (hchain.imp fun a b hr => jobReach_progress_le a b hr)
  · rw [List.getLast?_map]
    cases hl : polls.getLast? with
    | none => rw [hl] at hlast; cases hlast
    | some j =>
      rw [hl] at hlast
      have hj : j.status = JobStatus.completed := by simpa using hlast
      obtain ⟨st, pr, tot⟩ := j
      simp only at hj
      subst hj
      simp [jobProgress]

/-- Witness for C7: two polls — `processing` at 50%, then `completed` —
five machine transitions apart. -/
theorem video_progress_monotone_witness :
    List.Chain' (fun a b => a ≤ b)
      ([Job.mk JobStatus.processing 1 2, Job.mk JobStatus.completed 2 2].map jobProgress) ∧
    ([Job.mk JobStatus.processing 1 2,
      Job.mk JobStatus.completed 2 2].map jobProgress).getLast? = some 100 := by
  refine video_progress_monotone
    [Job.mk JobStatus.processing 1 2, Job.mk JobStatus.completed 2 2] ?_ rfl
  refine List.chain'_cons.mpr ⟨?_, List.chain'_singleton _⟩
  have s1 : jobStepB ⟨JobStatus.processing, 1, 2⟩ ⟨JobStatus.processing, 2, 2⟩ = true := by
    decide
  have s2 : jobStepB ⟨JobStatus.processing, 2, 2⟩ ⟨JobStatus.processing_done, 2, 2⟩ = true := by
    decide
  have s3 : jobStepB ⟨JobStatus.processing_done, 2, 2⟩ ⟨JobStatus.reencoding, 2, 2⟩ = true := by
    decide
  have s4 : jobStepB ⟨JobStatus.reencoding, 2, 2⟩ ⟨JobStatus.uploading, 2, 2⟩ = true := by
    decide
  have s5 : jobStepB ⟨JobStatus.uploading, 2, 2⟩ ⟨JobStatus.completed, 2, 2⟩ = true := by
    decide
  exact Relation.ReflTransGen.head s1
    (Relation.ReflTransGen.head s2
      (Relation.ReflTransGen.head s3
        (Relation.ReflTransGen.head s4 (Relation.ReflTransGen.single s5))))
